import Mathlib

/-!
Shallow embedding of src/handlers/swap_handlers.ts from the 0x-api repository.

Conventions used throughout:
* JavaScript numbers produced by Number.parseFloat are modelled as
  Option Rat, where none stands for NaN (absent or unparsable input) and
  some v for a successfully parsed finite value.  The claims under study
  only involve order comparisons and equality, never float rounding.
* The JavaScript coalescing idiom `x || d` on numbers (which replaces both
  NaN and 0 by the default d) is modelled by jsOr; on strings, truthiness
  (undefined and the empty string are falsy) is modelled by jsTruthy.
* Fallible code paths (throw new ValidationError and friends) are modelled
  with Except ApiError.
* JSON response objects manipulated with lodash omit and pick are modelled
  as association lists from field names to opaque payloads (Nat).
-/

deriving instance DecidableEq for Except

namespace ZeroEx

/-- Error codes of the ValidationError taxonomy referenced by the handler
(defined in the errors module of the repository). -/
inductive ValidationErrorCodes
  | RequiredField
  | IncorrectFormat
  | InvalidAddress
  | AddressNotSupported
  | ValueOutOfRange
  | InvalidSignatureOrHash
  | UnsupportedOption
deriving DecidableEq

/-- Named reason string used by the handler for percentage bounds checks. -/
def ValidationErrorReasons.PercentageOutOfRange : String :=
  "MUST_BE_LESS_THAN_ONE_HUNDRED_PERCENT"

/-- Named reason string used by the handler for the unsupported sell-side fee. -/
def ValidationErrorReasons.ArgumentNotYetSupported : String :=
  "ARGUMENT_NOT_YET_SUPPORTED"

/-- Marker string of the external asset-swapper library: an upstream failure
message beginning with it denotes insufficient liquidity. -/
def SwapQuoterError.InsufficientAssetLiquidity : String :=
  "INSUFFICIENT_ASSET_LIQUIDITY"

/-- Marker string of the external asset-swapper library: an upstream failure
message beginning with it denotes an unavailable asset. -/
def SwapQuoterError.AssetUnavailable : String :=
  "ASSET_UNAVAILABLE"

/-- One field/code/reason triple of a ValidationError. -/
structure ValidationErrorItem where
  field : String
  code : ValidationErrorCodes
  reason : String
deriving DecidableEq

/-- API-facing error kinds thrown by the handler: ValidationError,
RevertAPIError, InternalServerError, and the error thrown by
findTokenAddressOrThrowApiError when a token cannot be resolved. -/
inductive ApiError
  | validationError (items : List ValidationErrorItem)
  | revertApiError (payload : String)
  | internalServerError (msg : String)
  | tokenNotFoundError (field : String) (token : String)
deriving DecidableEq

/-- Null address sentinel from the utils package. -/
def NULL_ADDRESS : String := "0x0000000000000000000000000000000000000000"

/-- Default slippage fraction (1 percent) from the constants module. -/
def DEFAULT_QUOTE_SLIPPAGE_PERCENTAGE : ℚ := mkRat 1 100

/-- JavaScript numeric coalescing `x || d`: NaN (modelled none) and 0 are
falsy and replaced by the default; every other value passes through. -/
def jsOr (v : Option ℚ) (d : ℚ) : ℚ :=
  match v with
  | none => d
  | some x => if x = 0 then d else x

/-- JavaScript string truthiness: undefined (modelled none) and the empty
string are falsy. -/
def jsTruthy (s : Option String) : Bool :=
  match s with
  | none => false
  | some x => x != ""

/-- Endpoint kind passed to parseGetSwapQuoteRequestParams. -/
inductive Endpoint
  | price
  | quote
deriving DecidableEq

/-- Restricted-quote (rfqt) options carried by the canonical request. -/
structure RfqtOpts where
  intentOnFilling : Bool
  isIndicative : Bool
  nativeExclusivelyRFQT : Bool
deriving DecidableEq

/-- Affiliate fee descriptor carried by the canonical request. -/
structure AffiliateFee where
  recipient : String
  sellTokenPercentageFee : ℚ
  buyTokenPercentageFee : ℚ
deriving DecidableEq

/-- Raw query parameters of a swap quote or price request, after the
boundary conversions that the claims do not exercise: numeric parameters
are carried post parseFloat (none = absent or NaN), and the comma-separated
source lists are carried pre-split. -/
structure RawQuery where
  takerAddress : Option String
  sellToken : Option String
  buyToken : Option String
  sellAmount : Option ℚ
  buyAmount : Option ℚ
  gasPrice : Option ℚ
  slippagePercentage : Option ℚ
  feeRecipient : Option String
  sellTokenPercentageFee : Option ℚ
  buyTokenPercentageFee : Option ℚ
  excludedSources : Option (List String)
  includedSources : Option (List String)
  intentOnFilling : Option String
  skipValidation : Option String
  includePriceComparisons : Option String
  shouldSellEntireBalance : Option String
  affiliateAddress : Option String
deriving DecidableEq

/-- Canonical request produced by parseGetSwapQuoteRequestParams. -/
structure GetSwapQuoteRequestParams where
  takerAddress : Option String
  sellToken : Option String
  buyToken : Option String
  sellAmount : Option ℚ
  buyAmount : Option ℚ
  slippagePercentage : ℚ
  gasPrice : Option ℚ
  excludedSources : List String
  includedSources : List String
  affiliateAddress : Option String
  rfqt : Option RfqtOpts
  skipValidation : Bool
  apiKey : Option String
  affiliateFee : AffiliateFee
  includePriceComparisons : Bool
  shouldSellEntireBalance : Bool
deriving DecidableEq

/-- The ValidationError thrown when the parsed slippage fraction exceeds 1. -/
def slippageOutOfRangeError : ApiError :=
  .validationError
    [{ field := "slippagePercentage"
       code := ValidationErrorCodes.ValueOutOfRange
       reason := ValidationErrorReasons.PercentageOutOfRange }]

/-- Slippage handling of parseGetSwapQuoteRequestParams:
`Number.parseFloat(q) || DEFAULT_QUOTE_SLIPPAGE_PERCENTAGE`, then a throw
when the resulting value exceeds 1. -/
def parseSlippage (raw : Option ℚ) : Except ApiError ℚ :=
  let slippagePercentage := jsOr raw DEFAULT_QUOTE_SLIPPAGE_PERCENTAGE
  if slippagePercentage > 1 then .error slippageOutOfRangeError
  else .ok slippagePercentage

/-- The ValidationError thrown for a positive sell-side affiliate fee. -/
def sellFeeUnsupportedError : ApiError :=
  .validationError
    [{ field := "sellTokenPercentageFee"
       code := ValidationErrorCodes.UnsupportedOption
       reason := ValidationErrorReasons.ArgumentNotYetSupported }]

/-- The ValidationError thrown for a buy-side affiliate fee above 1. -/
def buyFeeOutOfRangeError : ApiError :=
  .validationError
    [{ field := "buyTokenPercentageFee"
       code := ValidationErrorCodes.ValueOutOfRange
       reason := ValidationErrorReasons.PercentageOutOfRange }]

/-- Zero-fee, null-recipient affiliate fee descriptor. -/
def zeroAffiliateFee : AffiliateFee :=
  { recipient := NULL_ADDRESS, sellTokenPercentageFee := 0, buyTokenPercentageFee := 0 }

/-- Affiliate-fee handling of parseGetSwapQuoteRequestParams: both fee
fractions are parsed with the `|| 0` coalescing, both bounds checks run
unconditionally, and only the descriptor construction is conditioned on the
truthiness of feeRecipient. -/
def parseAffiliateFee (feeRecipient : Option String) (rawSellFee rawBuyFee : Option ℚ) :
    Except ApiError AffiliateFee :=
  let sellTokenPercentageFee := jsOr rawSellFee 0
  let buyTokenPercentageFee := jsOr rawBuyFee 0
  if sellTokenPercentageFee > 0 then .error sellFeeUnsupportedError
  else if buyTokenPercentageFee > 1 then .error buyFeeOutOfRangeError
  else if jsTruthy feeRecipient then
    .ok { recipient := feeRecipient.getD ""
          sellTokenPercentageFee := sellTokenPercentageFee
          buyTokenPercentageFee := buyTokenPercentageFee }
  else .ok zeroAffiliateFee

/-- Liquidity sources gated by the restricted-quote (RFQT) API-key whitelist.
Modelled from the spec: the concrete source identifiers live in
parseUtils (utils/parse_utils.ts), which is not under src/. -/
def RFQT_GATED_SOURCES : List String := ["Native"]

/-- Privileged liquidity sources gated by the PLP API-key whitelist.
Modelled from the spec: the concrete source identifiers live in
serviceUtils (utils/service_utils.ts), which is not under src/. -/
def PLP_GATED_SOURCES : List String := ["LiquidityProvider"]

/-- Modelled from the spec: whether a given API key is eligible for a gated
source category, per the corresponding whitelist. -/
def keyEligible (apiKey : Option String) (whitelist : List String) : Bool :=
  match apiKey with
  | none => false
  | some k => whitelist.contains k

/-- Modelled from the spec: the source categories forced into the excluded
set because the API key is absent or not in the designated whitelist. -/
def forcedExcludedSources (apiKey : Option String)
    (rfqtWhitelist plpWhitelist : List String) : List String :=
  (if keyEligible apiKey rfqtWhitelist then [] else RFQT_GATED_SOURCES) ++
    (if keyEligible apiKey plpWhitelist then [] else PLP_GATED_SOURCES)

/-- Result of the source-filter resolution. -/
structure SourceFilterResult where
  excludedSources : List String
  includedSources : List String
  nativeExclusivelyRFQT : Bool
deriving DecidableEq

/-- Modelled from the spec: the SourceFilterResolver component, realised in
the repository by parseUtils.parseRequestForExcludedSources composed with
serviceUtils.determineExcludedSources, neither of which is under src/.
Per the spec it starts from the caller's explicit sets, forces every
privileged source category into the excluded set when the API key is absent
or not in the corresponding whitelist, and keeps the included and excluded
sets mutually exclusive by construction, so a caller cannot re-include a
privileged source they are not entitled to. -/
def resolveSourceFilters (rawExcluded rawIncluded : List String) (apiKey : Option String)
    (rfqtWhitelist plpWhitelist : List String) : SourceFilterResult :=
  let excluded :=
    rawExcluded ++
      (forcedExcludedSources apiKey rfqtWhitelist plpWhitelist).filter
        (fun s => !rawExcluded.contains s)
  { excludedSources := excluded
    includedSources := rawIncluded.filter (fun s => !excluded.contains s)
    nativeExclusivelyRFQT := rawIncluded == ["RFQT"] }

/-- Restricted-quote option resolution of parseGetSwapQuoteRequestParams
(the immediately-invoked closure at the end of the parser). -/
def resolveRfqtOptions (endpoint : Endpoint) (apiKey takerAddress intentOnFilling : Option String)
    (nativeExclusivelyRFQT : Bool) : Option RfqtOpts :=
  if jsTruthy apiKey then
    if endpoint == Endpoint.quote && jsTruthy takerAddress then
      some { intentOnFilling := intentOnFilling == some "true"
             isIndicative := false
             nativeExclusivelyRFQT := nativeExclusivelyRFQT }
    else if endpoint == Endpoint.price then
      some { intentOnFilling := false
             isIndicative := true
             nativeExclusivelyRFQT := nativeExclusivelyRFQT }
    else none
  else none

/-- skipValidation parsing: undefined becomes false, otherwise the literal
string comparison with true. -/
def parseSkipValidation (raw : Option String) : Bool :=
  match raw with
  | none => false
  | some s => s == "true"

/-- The parseGetSwapQuoteRequestParams function, composing the pieces above
in source order.  Schema validation and BigNumber construction for the
amount parameters are boundary conversions outside the claims and are not
modelled; the API key is read from the 0x-api-key header and passed here as
an argument, as are the process-wide whitelists. -/
def parseGetSwapQuoteRequestParams (req : RawQuery) (apiKey : Option String)
    (rfqtWhitelist plpWhitelist : List String) (endpoint : Endpoint) :
    Except ApiError GetSwapQuoteRequestParams :=
  match parseSlippage req.slippagePercentage with
  | .error e => .error e
  | .ok slippagePercentage =>
    match parseAffiliateFee req.feeRecipient req.sellTokenPercentageFee req.buyTokenPercentageFee with
    | .error e => .error e
    | .ok affiliateFee =>
      let filters :=
        resolveSourceFilters (req.excludedSources.getD []) (req.includedSources.getD [])
          apiKey rfqtWhitelist plpWhitelist
      let rfqt :=
        resolveRfqtOptions endpoint apiKey req.takerAddress req.intentOnFilling
          filters.nativeExclusivelyRFQT
      .ok { takerAddress := req.takerAddress
            sellToken := req.sellToken
            buyToken := req.buyToken
            sellAmount := req.sellAmount
            buyAmount := req.buyAmount
            slippagePercentage := slippagePercentage
            gasPrice := req.gasPrice
            excludedSources := filters.excludedSources
            includedSources := filters.includedSources
            affiliateAddress := req.affiliateAddress
            rfqt := rfqt
            skipValidation := parseSkipValidation req.skipValidation
            apiKey := apiKey
            affiliateFee := affiliateFee
            includePriceComparisons := req.includePriceComparisons == some "true"
            shouldSellEntireBalance := req.shouldSellEntireBalance == some "true" }

/-- Parameter construction of getSwapQuoteAsync: the parsed params are
handed to the orchestration step unchanged. -/
def getSwapQuoteCalcInput (req : RawQuery) (apiKey : Option String)
    (rfqtWhitelist plpWhitelist : List String) :
    Except ApiError GetSwapQuoteRequestParams :=
  parseGetSwapQuoteRequestParams req apiKey rfqtWhitelist plpWhitelist Endpoint.quote

/-- Parameter construction of getSwapPriceAsync: the parsed params are
handed to the orchestration step with skipValidation overridden to true. -/
def getSwapPriceCalcInput (req : RawQuery) (apiKey : Option String)
    (rfqtWhitelist plpWhitelist : List String) :
    Except ApiError GetSwapQuoteRequestParams :=
  match parseGetSwapQuoteRequestParams req apiKey rfqtWhitelist plpWhitelist Endpoint.price with
  | .error e => .error e
  | .ok params => .ok { params with skipValidation := true }

/-- Modelled from the spec: findTokenAddressOrThrowApiError from
utils/token_metadata_utils.ts, which is not under src/.  The spec says token
identifiers are resolved against a chain-specific token table; resolution
failure surfaces as an API error naming the offending field.  The table
lookup is passed in as the resolve argument. -/
def findTokenAddressOrThrowApiError (resolve : String → Option String)
    (token field : String) : Except ApiError String :=
  match resolve token with
  | some addr => .ok addr
  | none => .error (.tokenNotFoundError field token)

/-- The paired ValidationError thrown when sell and buy resolve to the same
address outside a wrap or unwrap. -/
def equalTokenValidationError : ApiError :=
  .validationError
    (["buyToken", "sellToken"].map fun field =>
      { field := field
        code := ValidationErrorCodes.RequiredField
        reason := "buyToken and sellToken must be different" })

/-- Token resolution, wrap/unwrap classification and the equal-token check
at the head of the private method of the handler that orchestrates quote
calculation.  The native-alias and wrapped-alias predicates and the token
table are passed in as functions (they live in utils/token_metadata_utils.ts
outside src/).  Returns the resolved sell and buy addresses together with
the isWrap and isUnwrap flags. -/
def equalTokenCheck (isETH isWETH : String → Bool) (resolve : String → Option String)
    (sellToken buyToken : String) : Except ApiError (String × String × Bool × Bool) :=
  let isETHSell := isETH sellToken
  let isETHBuy := isETH buyToken
  match findTokenAddressOrThrowApiError resolve (if isETHSell then "WETH" else sellToken) "sellToken" with
  | .error e => .error e
  | .ok sellTokenAddress =>
    match findTokenAddressOrThrowApiError resolve (if isETHBuy then "WETH" else buyToken) "buyToken" with
    | .error e => .error e
    | .ok buyTokenAddress =>
      let isWrap := isETHSell && isWETH buyToken
      let isUnwrap := isWETH sellToken && isETHBuy
      if !isUnwrap && !isWrap && sellTokenAddress == buyTokenAddress then
        .error equalTokenValidationError
      else
        .ok (sellTokenAddress, buyTokenAddress, isWrap, isUnwrap)

/-- String prefix test, modelling the startsWith calls of the catch block
on character lists. -/
def strStartsWith (s p : String) : Bool :=
  p.data.isPrefixOf s.data

/-- A failure raised during orchestration, as discriminated by the catch
block: an already API-facing error (isAPIError), an on-chain revert
(isRevertError), or a plain error carrying only a message. -/
inductive OrchestrationFailure
  | apiError (e : ApiError)
  | revertError (payload : String)
  | rawError (message : String)
deriving DecidableEq

/-- The catch block of the orchestrating method: propagate API errors,
wrap reverts, classify liquidity and availability markers by message
prefix, and fall back to an internal server error. -/
def classifyOrchestrationError (buyAmount : Option ℚ) (e : OrchestrationFailure) : ApiError :=
  match e with
  | .apiError err => err
  | .revertError payload => .revertApiError payload
  | .rawError errorMessage =>
    if strStartsWith errorMessage SwapQuoterError.InsufficientAssetLiquidity ||
        strStartsWith errorMessage "NO_OPTIMAL_PATH" then
      .validationError
        [{ field := if buyAmount.isSome then "buyAmount" else "sellAmount"
           code := ValidationErrorCodes.ValueOutOfRange
           reason := SwapQuoterError.InsufficientAssetLiquidity }]
    else if strStartsWith errorMessage SwapQuoterError.AssetUnavailable then
      .validationError
        [{ field := "token"
           code := ValidationErrorCodes.ValueOutOfRange
           reason := errorMessage }]
    else .internalServerError errorMessage

/-- Vertical tab. -/
def charVTab : Char := Char.ofNat 11

/-- Form feed. -/
def charFormFeed : Char := Char.ofNat 12

/-- JavaScript whitespace characters matched by the regex class \s
(the common ones; the claims do not depend on the exotic code points). -/
def isJsWhitespace (c : Char) : Bool :=
  c == ' ' || c == '\t' || c == '\n' || c == '\r' ||
    c == charVTab || c == charFormFeed || c == Char.ofNat 0xa0

/-- Line terminators that the regex metacharacter for any character does
not match in JavaScript. -/
def isJsLineTerminator (c : Char) : Bool :=
  c == '\n' || c == '\r' || c == Char.ofNat 0x2028 || c == Char.ofNat 0x2029

/-- The bearer-token pattern anchored at both ends: the literal Bearer,
one whitespace character, then exactly 36 characters none of which is a
line terminator.  Returns the captured 36-character token on a match. -/
def bearerMatch (auth : String) : Option String :=
  let cs := auth.data
  if cs.take 6 = "Bearer".data then
    match cs.drop 6 with
    | [] => none
    | c :: rest =>
      if isJsWhitespace c && rest.length == 36 && rest.all (fun ch => !isJsLineTerminator ch) then
        some (String.mk rest)
      else none
  else none

/-- Response of the registry-listing endpoint: HTTP status, optional body
(the configured API-key whitelist payload), and the list of labels under
which the attempt counter was incremented while serving the request. -/
structure RegistryResponse where
  status : Nat
  body : Option (List String)
  counterIncrements : List String
deriving DecidableEq

/-- Label of the attempt counter: the coalescing of the raw header with the
sentinel, where undefined and the empty string are falsy. -/
def registryLabel (auth : Option String) : String :=
  match auth with
  | none => "N/A"
  | some a => if a = "" then "N/A" else a

/-- HTTP status codes used by the handler. -/
def HttpStatus.OK : Nat := 200

/-- Unauthorized status code. -/
def HttpStatus.UNAUTHORIZED : Nat := 401

/-- The registry-listing handler: increment the attempt counter first, then
reject a missing header, a header that fails the bearer pattern, or a token
outside the registry password set, all with an empty unauthorized response;
otherwise answer OK with the configured whitelist payload. -/
def getRfqRegistry (registrySet whitelist : List String) (auth : Option String) :
    RegistryResponse :=
  let inc := [registryLabel auth]
  match auth with
  | none => { status := HttpStatus.UNAUTHORIZED, body := none, counterIncrements := inc }
  | some a =>
    match bearerMatch a with
    | none => { status := HttpStatus.UNAUTHORIZED, body := none, counterIncrements := inc }
    | some authToken =>
      if registrySet.contains authToken then
        { status := HttpStatus.OK, body := some whitelist, counterIncrements := inc }
      else
        { status := HttpStatus.UNAUTHORIZED, body := none, counterIncrements := inc }

/-- Modelled from the spec: isETHSymbolOrAddress from
utils/token_metadata_utils.ts, which is not under src/.  An identifier is a
native-asset alias when it is the ETH symbol or the native-asset
pseudo-address. -/
def isETHSymbolOrAddress (token : String) : Bool :=
  token == "ETH" || token == "0xeeeeeeeeeeeeeeeeeeeeeeeeeeeeeeeeeeeeeeee"

/-- The ValidationError thrown by the market-depth handler for an equal
pair after native-to-wrapped substitution. -/
def marketDepthPairError (sellSub buySub : String) : ApiError :=
  .validationError
    [{ field := "buyToken"
       code := ValidationErrorCodes.InvalidAddress
       reason := "Invalid pair " ++ sellSub ++ "/" ++ buySub }]

/-- Token-pair validation of the market-depth handler: substitute the WETH
literal for native-asset aliases on both legs, then compare the resulting
identifiers as strings, with no wrap or unwrap carve-out. -/
def getMarketDepthTokenCheck (isETH : String → Bool) (buyToken sellToken : String) :
    Except ApiError (String × String) :=
  let buyTokenSymbolOrAddress := if isETH buyToken then "WETH" else buyToken
  let sellTokenSymbolOrAddress := if isETH sellToken then "WETH" else sellToken
  if buyTokenSymbolOrAddress == sellTokenSymbolOrAddress then
    .error (marketDepthPairError sellTokenSymbolOrAddress buyTokenSymbolOrAddress)
  else
    .ok (buyTokenSymbolOrAddress, sellTokenSymbolOrAddress)

/-- A JSON response object modelled as an association list from field names
to opaque payloads. -/
abbrev JsonObj := List (String × Nat)

/-- Lodash omit: drop the listed keys. -/
def omitKeys (obj : JsonObj) (keys : List String) : JsonObj :=
  obj.filter fun kv => !keys.contains kv.1

/-- Lodash pick: keep only the listed keys. -/
def pickKeys (obj : JsonObj) (keys : List String) : JsonObj :=
  obj.filter fun kv => keys.contains kv.1

/-- Whether the object carries a key. -/
def hasKey (obj : JsonObj) (k : String) : Bool :=
  obj.any fun kv => kv.1 == k

/-- JavaScript property assignment: overwrite in place, else append. -/
def setKey (obj : JsonObj) (k : String) (v : Nat) : JsonObj :=
  if hasKey obj k then obj.map (fun kv => if kv.1 == k then (k, v) else kv)
  else obj ++ [(k, v)]

/-- Fields picked into the GetSwapPriceResponse by the price handler. -/
def swapPricePickFields : List String :=
  ["price", "value", "gasPrice", "gas", "estimatedGas", "protocolFee",
   "minimumProtocolFee", "buyTokenAddress", "buyAmount", "sellTokenAddress",
   "sellAmount", "sources", "allowanceTarget", "sellTokenToEthRate",
   "buyTokenToEthRate"]

/-- Response body sent by getSwapQuoteAsync: the quote with the internal
quoteReport and decodedUniqueId fields omitted, plus the priceComparisons
field when comparisons were requested and a report exists. -/
def getSwapQuoteResponseBody (quote : JsonObj) (includePriceComparisons : Bool)
    (priceComparisons : Nat) : JsonObj :=
  let response := omitKeys quote ["quoteReport", "decodedUniqueId"]
  if includePriceComparisons && hasKey quote "quoteReport" then
    setKey response "priceComparisons" priceComparisons
  else response

/-- Response body sent by getSwapPriceAsync: a GetSwapPriceResponse is
constructed by picking the external fields and conditionally attaching
priceComparisons, but the final send statement transmits the original
quote object, leaving the constructed response unused. -/
def getSwapPriceResponseBody (quote : JsonObj) (includePriceComparisons : Bool)
    (priceComparisons : Nat) : JsonObj :=
  let response := pickKeys quote swapPricePickFields
  let _unusedResponse :=
    if includePriceComparisons && hasKey quote "quoteReport" then
      setKey response "priceComparisons" priceComparisons
    else response
  quote

/-! Sample inputs shared by the concrete evaluations below. -/

/-- A raw query with every parameter absent. -/
def emptyRawQuery : RawQuery :=
  { takerAddress := none, sellToken := none, buyToken := none, sellAmount := none,
    buyAmount := none, gasPrice := none, slippagePercentage := none, feeRecipient := none,
    sellTokenPercentageFee := none, buyTokenPercentageFee := none, excludedSources := none,
    includedSources := none, intentOnFilling := none, skipValidation := none,
    includePriceComparisons := none, shouldSellEntireBalance := none, affiliateAddress := none }

/-- A downstream quote result carrying both internal-only fields. -/
def sampleQuoteResult : JsonObj :=
  [("price", 1), ("buyAmount", 2), ("quoteReport", 3), ("decodedUniqueId", 4)]

/-! Helper lemmas. -/

/-- Absent or unparsable slippage input falls back to the default. -/
theorem parseSlippage_none :
    parseSlippage none = .ok DEFAULT_QUOTE_SLIPPAGE_PERCENTAGE := by
  have h : ¬ (DEFAULT_QUOTE_SLIPPAGE_PERCENTAGE > 1) := by decide
  simp [parseSlippage, jsOr, h]

/-- Parsed slippage zero falls back to the default. -/
theorem parseSlippage_zero :
    parseSlippage (some 0) = .ok DEFAULT_QUOTE_SLIPPAGE_PERCENTAGE := by
  have h : ¬ (DEFAULT_QUOTE_SLIPPAGE_PERCENTAGE > 1) := by decide
  simp [parseSlippage, jsOr, h]

/-- A nonzero parsed slippage at most 1 passes through unchanged. -/
theorem parseSlippage_passthrough (v : ℚ) (hne : v ≠ 0) (hle : v ≤ 1) :
    parseSlippage (some v) = .ok v := by
  have h : ¬ (v > 1) := not_lt.2 hle
  simp [parseSlippage, jsOr, hne, h]

/-- A parsed slippage above 1 fails with the out-of-range error. -/
theorem parseSlippage_gt_one (v : ℚ) (h : 1 < v) :
    parseSlippage (some v) = .error slippageOutOfRangeError := by
  have hne : ¬ v = 0 := by rintro rfl; norm_num at h
  simp [parseSlippage, jsOr, hne, h]

/-- When the slippage step succeeds with value s, a successful parse carries
exactly s in the canonical request. -/
theorem parse_ok_slippage (req : RawQuery) (apiKey : Option String)
    (rfqtWhitelist plpWhitelist : List String) (endpoint : Endpoint) (s : ℚ)
    (hs : parseSlippage req.slippagePercentage = .ok s)
    (p : GetSwapQuoteRequestParams)
    (hp : parseGetSwapQuoteRequestParams req apiKey rfqtWhitelist plpWhitelist endpoint = .ok p) :
    p.slippagePercentage = s := by
  unfold parseGetSwapQuoteRequestParams at hp
  rw [hs] at hp
  cases hfee : parseAffiliateFee req.feeRecipient req.sellTokenPercentageFee req.buyTokenPercentageFee with
  | error e => rw [hfee] at hp; exact absurd hp (by simp)
  | ok fee =>
    rw [hfee] at hp
    simp only [Except.ok.injEq] at hp
    rw [← hp]

/-- When the slippage step fails, the parse fails with the same error. -/
theorem parse_error_slippage (req : RawQuery) (apiKey : Option String)
    (rfqtWhitelist plpWhitelist : List String) (endpoint : Endpoint) (e : ApiError)
    (hs : parseSlippage req.slippagePercentage = .error e) :
    parseGetSwapQuoteRequestParams req apiKey rfqtWhitelist plpWhitelist endpoint = .error e := by
  unfold parseGetSwapQuoteRequestParams
  rw [hs]

/-! Claim theorems. -/

/-- C1: evaluation of both response constructions on a quote result that
carries the internal-only fields.  The quote endpoint strips quoteReport and
decodedUniqueId, but the price endpoint sends the original quote object
(its final send statement transmits the quote, not the constructed
GetSwapPriceResponse), so both internal fields reach the client there. -/
theorem quote_strips_and_price_leaks_internal_fields :
    hasKey (getSwapQuoteResponseBody sampleQuoteResult true 9) "quoteReport" = false ∧
    hasKey (getSwapQuoteResponseBody sampleQuoteResult true 9) "decodedUniqueId" = false ∧
    hasKey (getSwapQuoteResponseBody sampleQuoteResult false 9) "quoteReport" = false ∧
    hasKey (getSwapQuoteResponseBody sampleQuoteResult false 9) "decodedUniqueId" = false ∧
    hasKey (getSwapPriceResponseBody sampleQuoteResult false 9) "quoteReport" = true ∧
    hasKey (getSwapPriceResponseBody sampleQuoteResult false 9) "decodedUniqueId" = true := by
  decide

/-- A raw query whose slippage parameter parsed to minus one half. -/
def negSlippageQuery : RawQuery :=
  { emptyRawQuery with slippagePercentage := some (mkRat (-1) 2) }

/-- C2 counterexample: a negative parsed slippage value is non-positive, yet
the canonical request carries it unchanged instead of the default 0.01,
because the JavaScript coalescing only replaces NaN and zero. -/
theorem slippage_negative_value_not_defaulted :
    (parseGetSwapQuoteRequestParams negSlippageQuery none [] [] Endpoint.quote).map
        GetSwapQuoteRequestParams.slippagePercentage = Except.ok (mkRat (-1) 2) ∧
    mkRat (-1) 2 ≤ 0 ∧ mkRat (-1) 2 ≠ DEFAULT_QUOTE_SLIPPAGE_PERCENTAGE := by
  decide

/-- C2 as amended: absent, unparsable or zero slippage input yields the
default 0.01 in the canonical request; any other parsed value at most 1,
negative values included, is carried exactly; a parsed value above 1 fails
with the percentage-out-of-range ValidationError on slippagePercentage. -/
theorem slippage_parsing_amended (req : RawQuery) (apiKey : Option String)
    (rfqtWhitelist plpWhitelist : List String) (endpoint : Endpoint) (v : ℚ) :
    ((req.slippagePercentage = none ∨ req.slippagePercentage = some 0) →
      ∀ p, parseGetSwapQuoteRequestParams req apiKey rfqtWhitelist plpWhitelist endpoint = .ok p →
        p.slippagePercentage = DEFAULT_QUOTE_SLIPPAGE_PERCENTAGE) ∧
    (req.slippagePercentage = some v → v ≠ 0 → v ≤ 1 →
      ∀ p, parseGetSwapQuoteRequestParams req apiKey rfqtWhitelist plpWhitelist endpoint = .ok p →
        p.slippagePercentage = v) ∧
    (req.slippagePercentage = some v → 1 < v →
      parseGetSwapQuoteRequestParams req apiKey rfqtWhitelist plpWhitelist endpoint =
        .error slippageOutOfRangeError) := by
  refine ⟨?_, ?_, ?_⟩
  · rintro (h | h) p hp
    · exact parse_ok_slippage req apiKey rfqtWhitelist plpWhitelist endpoint _
        (by rw [h]; exact parseSlippage_none) p hp
    · exact parse_ok_slippage req apiKey rfqtWhitelist plpWhitelist endpoint _
        (by rw [h]; exact parseSlippage_zero) p hp
  · intro h hne hle p hp
    exact parse_ok_slippage req apiKey rfqtWhitelist plpWhitelist endpoint _
      (by rw [h]; exact parseSlippage_passthrough v hne hle) p hp
  · intro h hgt
    exact parse_error_slippage req apiKey rfqtWhitelist plpWhitelist endpoint _
      (by rw [h]; exact parseSlippage_gt_one v hgt)

/-- A raw query whose slippage parameter parsed to 2. -/
def bigSlippageQuery : RawQuery :=
  { emptyRawQuery with slippagePercentage := some 2 }

/-- C2 witness: the amended theorem applied at slippage 2 on the quote
endpoint yields the out-of-range ValidationError. -/
theorem slippage_parsing_amended_witness :
    parseGetSwapQuoteRequestParams bigSlippageQuery none [] [] Endpoint.quote =
      .error slippageOutOfRangeError :=
  (slippage_parsing_amended bigSlippageQuery none [] [] Endpoint.quote 2).2.2 rfl (by decide)

/-- C3 counterexample: with no fee recipient supplied and a positive parsed
sellTokenPercentageFee, parsing fails with the unsupported-option error
instead of producing the zero-fee, null-recipient descriptor, because both
fee checks run before the recipient is consulted. -/
theorem affiliate_fee_checked_without_recipient :
    parseAffiliateFee none (some (mkRat 1 2)) none = .error sellFeeUnsupportedError ∧
    parseAffiliateFee none (some (mkRat 1 2)) none ≠ .ok zeroAffiliateFee := by
  decide

/-- C3 as amended: the affiliate-fee bounds checks are unconditional.  A
positive parsed sell-side fee always fails with the unsupported-option
error on sellTokenPercentageFee; otherwise a parsed buy-side fee above 1
always fails with percentage-out-of-range on buyTokenPercentageFee; when
both checks pass, a truthy fee recipient yields the descriptor carrying
that recipient and the exact parsed fee values, and an absent or empty
recipient yields the zero-fee, null-recipient descriptor. -/
theorem affiliate_fee_parsing_amended (feeRecipient : Option String)
    (rawSellFee rawBuyFee : Option ℚ) :
    (0 < jsOr rawSellFee 0 →
      parseAffiliateFee feeRecipient rawSellFee rawBuyFee = .error sellFeeUnsupportedError) ∧
    (jsOr rawSellFee 0 ≤ 0 → 1 < jsOr rawBuyFee 0 →
      parseAffiliateFee feeRecipient rawSellFee rawBuyFee = .error buyFeeOutOfRangeError) ∧
    (jsOr rawSellFee 0 ≤ 0 → jsOr rawBuyFee 0 ≤ 1 → jsTruthy feeRecipient = true →
      parseAffiliateFee feeRecipient rawSellFee rawBuyFee =
        .ok { recipient := feeRecipient.getD ""
              sellTokenPercentageFee := jsOr rawSellFee 0
              buyTokenPercentageFee := jsOr rawBuyFee 0 }) ∧
    (jsOr rawSellFee 0 ≤ 0 → jsOr rawBuyFee 0 ≤ 1 → jsTruthy feeRecipient = false →
      parseAffiliateFee feeRecipient rawSellFee rawBuyFee = .ok zeroAffiliateFee) := by
  refine ⟨?_, ?_, ?_, ?_⟩
  · intro h1
    simp [parseAffiliateFee, h1]
  · intro h1 h2
    simp [parseAffiliateFee, not_lt.2 h1, h2]
  · intro h1 h2 hr
    simp [parseAffiliateFee, not_lt.2 h1, not_lt.2 h2, hr]
  · intro h1 h2 hr
    simp [parseAffiliateFee, not_lt.2 h1, not_lt.2 h2, hr]

/-- C3 witness: the amended theorem applied with a fee recipient present,
no sell-side fee and a buy-side fee of one tenth. -/
theorem affiliate_fee_parsing_amended_witness :
    parseAffiliateFee (some "0xfeerecipient") none (some (mkRat 1 10)) =
      .ok { recipient := "0xfeerecipient"
            sellTokenPercentageFee := 0
            buyTokenPercentageFee := mkRat 1 10 } :=
  (affiliate_fee_parsing_amended (some "0xfeerecipient") none (some (mkRat 1 10))).2.2.1
    (by decide) (by decide) (by decide)

/-- C4: with both token legs resolving (natively-aliased legs resolve via
the WETH literal), the paired equal-token ValidationError is raised exactly
when the pair is neither a wrap nor an unwrap and the resolved addresses
coincide; and whenever the pair is a wrap or an unwrap, provided every
wrapped-alias identifier resolves like the WETH literal, the resolved
addresses do coincide and yet the check passes. -/
theorem equal_token_check_iff_ordinary (isETH isWETH : String → Bool)
    (resolve : String → Option String) (sellToken buyToken sellAddr buyAddr : String)
    (hs : resolve (if isETH sellToken then "WETH" else sellToken) = some sellAddr)
    (hb : resolve (if isETH buyToken then "WETH" else buyToken) = some buyAddr)
    (hcoh : ∀ t, isWETH t = true → resolve t = resolve "WETH") :
    (equalTokenCheck isETH isWETH resolve sellToken buyToken = .error equalTokenValidationError ↔
      (isETH sellToken && isWETH buyToken) = false ∧
        (isWETH sellToken && isETH buyToken) = false ∧ sellAddr = buyAddr) ∧
    ((isETH sellToken && isWETH buyToken) = true ∨ (isWETH sellToken && isETH buyToken) = true →
      sellAddr = buyAddr ∧
        equalTokenCheck isETH isWETH resolve sellToken buyToken =
          .ok (sellAddr, buyAddr, isETH sellToken && isWETH buyToken,
            isWETH sellToken && isETH buyToken)) := by
  have hred : equalTokenCheck isETH isWETH resolve sellToken buyToken =
      if !(isWETH sellToken && isETH buyToken) && !(isETH sellToken && isWETH buyToken) &&
          (sellAddr == buyAddr) then
        .error equalTokenValidationError
      else
        .ok (sellAddr, buyAddr, isETH sellToken && isWETH buyToken,
          isWETH sellToken && isETH buyToken) := by
    simp only [equalTokenCheck, findTokenAddressOrThrowApiError, hs, hb]
  constructor
  · rw [hred]
    by_cases hab : sellAddr = buyAddr
    · cases hW : (isETH sellToken && isWETH buyToken) <;>
        cases hU : (isWETH sellToken && isETH buyToken) <;>
          simp [hW, hU, hab]
    · have hab' : (sellAddr == buyAddr) = false := beq_eq_false_iff_ne.2 hab
      simp [hab', hab]
  · intro hwu
    have haddr : sellAddr = buyAddr := by
      rcases hwu with hw | hu
      · rw [Bool.and_eq_true] at hw
        obtain ⟨h1, h2⟩ := hw
        rw [h1] at hs
        simp only [if_pos] at hs
        have hb' : resolve "WETH" = some buyAddr := by
          by_cases hEB : isETH buyToken = true
          · rw [hEB] at hb
            simpa using hb
          · rw [Bool.not_eq_true] at hEB
            rw [hEB] at hb
            simp only [Bool.false_eq_true, if_neg, if_false] at hb
            rw [← hcoh buyToken h2]
            exact hb
        rw [hs] at hb'
        exact Option.some.inj hb'
      · rw [Bool.and_eq_true] at hu
        obtain ⟨h1, h2⟩ := hu
        rw [h2] at hb
        simp only [if_pos] at hb
        have hs' : resolve "WETH" = some sellAddr := by
          by_cases hES : isETH sellToken = true
          · rw [hES] at hs
            simpa using hs
          · rw [Bool.not_eq_true] at hES
            rw [hES] at hs
            simp only [Bool.false_eq_true, if_neg, if_false] at hs
            rw [← hcoh sellToken h1]
            exact hs
        rw [hs'] at hb
        exact Option.some.inj hb
    refine ⟨haddr, ?_⟩
    rw [hred]
    rcases hwu with hw | hu
    · simp [hw]
    · simp [hu]

/-- A sample token table for concrete evaluation: the wrapped native token
and one ordinary token. -/
def sampleResolve : String → Option String :=
  fun t => if t == "WETH" then some "0xweth" else if t == "DAI" then some "0xdai" else none

/-- C4 witness: selling the native alias against the wrapped token with a
concrete token table is classified as a wrap and passes the check even
though both legs resolve to the wrapped address. -/
theorem equal_token_check_iff_ordinary_witness :
    equalTokenCheck (fun t => t == "ETH") (fun t => t == "WETH") sampleResolve "ETH" "WETH" =
      .ok ("0xweth", "0xweth", true, false) :=
  ((equal_token_check_iff_ordinary (fun t => t == "ETH") (fun t => t == "WETH") sampleResolve
      "ETH" "WETH" "0xweth" "0xweth" (by decide) (by decide)
      (fun t ht => by rw [eq_of_beq ht])).2 (Or.inl (by decide))).2

/-- C5: the restricted-quote options are a function of endpoint kind,
API-key truthiness, taker-address truthiness and the raw intentOnFilling
parameter: absent whenever the API key is falsy; on the quote endpoint with
a truthy key and taker address they carry the literal string comparison of
intentOnFilling with true and are firm (not indicative); on the price
endpoint with a truthy key they are indicative with no fill intent,
irrespective of intentOnFilling; in every other case they are absent. -/
theorem rfqt_options_resolution (endpoint : Endpoint)
    (apiKey takerAddress intentOnFilling : Option String) (flag : Bool) :
    (jsTruthy apiKey = false →
      resolveRfqtOptions endpoint apiKey takerAddress intentOnFilling flag = none) ∧
    (jsTruthy apiKey = true → jsTruthy takerAddress = true →
      resolveRfqtOptions Endpoint.quote apiKey takerAddress intentOnFilling flag =
        some { intentOnFilling := intentOnFilling == some "true"
               isIndicative := false
               nativeExclusivelyRFQT := flag }) ∧
    (jsTruthy apiKey = true →
      resolveRfqtOptions Endpoint.price apiKey takerAddress intentOnFilling flag =
        some { intentOnFilling := false
               isIndicative := true
               nativeExclusivelyRFQT := flag }) ∧
    (jsTruthy apiKey = true → jsTruthy takerAddress = false →
      resolveRfqtOptions Endpoint.quote apiKey takerAddress intentOnFilling flag = none) := by
  refine ⟨?_, ?_, ?_, ?_⟩
  · intro h
    simp [resolveRfqtOptions, h]
  · intro h ht
    simp [resolveRfqtOptions, h, ht]
  · intro h
    simp [resolveRfqtOptions, h]
  · intro h ht
    simp [resolveRfqtOptions, h, ht]

/-- C5 witness: quote endpoint, API key and taker address present, raw
intentOnFilling equal to the literal true. -/
theorem rfqt_options_resolution_witness :
    resolveRfqtOptions Endpoint.quote (some "live-api-key") (some "0xtaker") (some "true") false =
      some { intentOnFilling := true, isIndicative := false, nativeExclusivelyRFQT := false } :=
  (rfqt_options_resolution Endpoint.quote (some "live-api-key") (some "0xtaker")
      (some "true") false).2.1 (by decide) (by decide)

/-- C6 counterexample: a present but empty Authorization header is labelled
with the N/A sentinel rather than the raw header value, because the counter
label coalesces every falsy header, not only an absent one. -/
theorem registry_counter_label_empty_header :
    (getRfqRegistry [] [] (some "")).counterIncrements = ["N/A"] ∧
    (getRfqRegistry [] [] (some "")).counterIncrements ≠ [""] := by
  decide

/-- C6 as amended: a missing Authorization header, a header failing the
bearer pattern, and a bearer token outside the password set each produce an
unauthorized response with no body; a bearer token in the password set
produces an OK response carrying the whitelist payload; and in every case
the attempt counter is incremented exactly once, labelled by the raw header
value when the header is present and non-empty and by the N/A sentinel when
it is absent or empty. -/
theorem registry_access_amended (registrySet whitelist : List String) (auth : Option String) :
    (auth = none →
      getRfqRegistry registrySet whitelist auth =
        { status := HttpStatus.UNAUTHORIZED, body := none, counterIncrements := ["N/A"] }) ∧
    (∀ a, auth = some a → bearerMatch a = none →
      getRfqRegistry registrySet whitelist auth =
        { status := HttpStatus.UNAUTHORIZED, body := none,
          counterIncrements := [registryLabel auth] }) ∧
    (∀ a t, auth = some a → bearerMatch a = some t → registrySet.contains t = false →
      getRfqRegistry registrySet whitelist auth =
        { status := HttpStatus.UNAUTHORIZED, body := none,
          counterIncrements := [registryLabel auth] }) ∧
    (∀ a t, auth = some a → bearerMatch a = some t → registrySet.contains t = true →
      getRfqRegistry registrySet whitelist auth =
        { status := HttpStatus.OK, body := some whitelist,
          counterIncrements := [registryLabel auth] }) ∧
    (getRfqRegistry registrySet whitelist auth).counterIncrements = [registryLabel auth] := by
  refine ⟨?_, ?_, ?_, ?_, ?_⟩
  · rintro rfl
    simp [getRfqRegistry, registryLabel]
  · rintro a rfl hbm
    simp [getRfqRegistry, hbm]
  · rintro a t rfl hbm hmem
    simp at hmem
    simp [getRfqRegistry, hbm, hmem]
  · rintro a t rfl hbm hmem
    simp at hmem
    simp [getRfqRegistry, hbm, hmem]
  · cases auth with
    | none => simp [getRfqRegistry]
    | some a =>
      cases hbm : bearerMatch a with
      | none => simp [getRfqRegistry, hbm]
      | some t =>
        by_cases hmem : t ∈ registrySet
        all_goals simp [getRfqRegistry, hbm, hmem]

/-- A 36-character registry password. -/
def sampleRegistryToken : String := "123456789012345678901234567890123456"

/-- An Authorization header carrying the sample password. -/
def sampleRegistryAuth : String := "Bearer 123456789012345678901234567890123456"

/-- C6 witness: the amended theorem applied to a well-formed bearer header
whose token is in the password set. -/
theorem registry_access_amended_witness :
    getRfqRegistry [sampleRegistryToken] ["maker-api-key"] (some sampleRegistryAuth) =
      { status := HttpStatus.OK, body := some ["maker-api-key"],
        counterIncrements := [sampleRegistryAuth] } :=
  (registry_access_amended [sampleRegistryToken] ["maker-api-key"]
      (some sampleRegistryAuth)).2.2.2.1 sampleRegistryAuth sampleRegistryToken rfl
    (by decide) (by decide)

/-- C7: a plain orchestration failure (not API-facing, not a revert) whose
message begins with the insufficient-liquidity marker or the NO_OPTIMAL_PATH
marker is classified as a ValidationError on buyAmount when a buy amount
was supplied and on sellAmount otherwise, with the value-out-of-range code
and the insufficient-liquidity reason. -/
theorem liquidity_error_classification (errorMessage : String) (buyAmount : Option ℚ)
    (h : strStartsWith errorMessage SwapQuoterError.InsufficientAssetLiquidity = true ∨
      strStartsWith errorMessage "NO_OPTIMAL_PATH" = true) :
    classifyOrchestrationError buyAmount (.rawError errorMessage) =
      .validationError
        [{ field := if buyAmount.isSome then "buyAmount" else "sellAmount"
           code := ValidationErrorCodes.ValueOutOfRange
           reason := SwapQuoterError.InsufficientAssetLiquidity }] := by
  rcases h with h | h <;> simp [classifyOrchestrationError, h]

/-- C7 witness: an insufficient-liquidity message with only a sell amount
populated classifies onto the sellAmount field. -/
theorem liquidity_error_classification_witness :
    classifyOrchestrationError (none : Option ℚ)
        (.rawError "INSUFFICIENT_ASSET_LIQUIDITY: not enough") =
      .validationError
        [{ field := "sellAmount"
           code := ValidationErrorCodes.ValueOutOfRange
           reason := SwapQuoterError.InsufficientAssetLiquidity }] :=
  liquidity_error_classification "INSUFFICIENT_ASSET_LIQUIDITY: not enough" none
    (Or.inl (by decide))

/-- The excluded set of the resolver, written out. -/
theorem resolveSourceFilters_excludedSources (rawExcluded rawIncluded : List String)
    (apiKey : Option String) (rfqtWhitelist plpWhitelist : List String) :
    (resolveSourceFilters rawExcluded rawIncluded apiKey rfqtWhitelist plpWhitelist).excludedSources =
      rawExcluded ++
        (forcedExcludedSources apiKey rfqtWhitelist plpWhitelist).filter
          (fun s => !rawExcluded.contains s) := rfl

/-- The included set of the resolver, written out. -/
theorem resolveSourceFilters_includedSources (rawExcluded rawIncluded : List String)
    (apiKey : Option String) (rfqtWhitelist plpWhitelist : List String) :
    (resolveSourceFilters rawExcluded rawIncluded apiKey rfqtWhitelist plpWhitelist).includedSources =
      rawIncluded.filter
        (fun s =>
          !(resolveSourceFilters rawExcluded rawIncluded apiKey rfqtWhitelist
              plpWhitelist).excludedSources.contains s) := rfl

/-- C8: source filtering is monotonic.  For every request, whatever the API
key, the resolved excluded set contains the caller's explicit excluded set
as a subset; and when the API key is absent or outside the privileged (PLP)
whitelist, no privileged source is in the resolved included set. -/
theorem source_filtering_monotonic (rawExcluded rawIncluded : List String)
    (apiKey : Option String) (rfqtWhitelist plpWhitelist : List String) :
    (∀ s ∈ rawExcluded,
      s ∈ (resolveSourceFilters rawExcluded rawIncluded apiKey rfqtWhitelist
          plpWhitelist).excludedSources) ∧
    ((apiKey = none ∨ ∃ k, apiKey = some k ∧ k ∉ plpWhitelist) →
      ∀ s ∈ PLP_GATED_SOURCES,
        s ∉ (resolveSourceFilters rawExcluded rawIncluded apiKey rfqtWhitelist
            plpWhitelist).includedSources) := by
  constructor
  · intro s hs
    rw [resolveSourceFilters_excludedSources]
    exact List.mem_append_left _ hs
  · intro hkey s hsP hmem
    have hplp : keyEligible apiKey plpWhitelist = false := by
      rcases hkey with rfl | ⟨k, rfl, hk⟩
      · rfl
      · simpa [keyEligible] using hk
    have hsE : s ∈ (resolveSourceFilters rawExcluded rawIncluded apiKey rfqtWhitelist
        plpWhitelist).excludedSources := by
      rw [resolveSourceFilters_excludedSources]
      by_cases hin : s ∈ rawExcluded
      · exact List.mem_append_left _ hin
      · refine List.mem_append_right _ (List.mem_filter.2 ⟨?_, ?_⟩)
        · simp only [forcedExcludedSources, hplp, Bool.false_eq_true, if_false]
          exact List.mem_append_right _ hsP
        · simpa using hin
    rw [resolveSourceFilters_includedSources] at hmem
    have h2 := (List.mem_filter.1 hmem).2
    have h3 : (resolveSourceFilters rawExcluded rawIncluded apiKey rfqtWhitelist
        plpWhitelist).excludedSources.contains s = true :=
      List.elem_eq_true_of_mem hsE
    rw [h3] at h2
    exact absurd h2 (by decide)

/-- C8 witness: with no API key, an explicitly excluded ordinary source
stays excluded and the privileged source cannot be re-included. -/
theorem source_filtering_monotonic_witness :
    "Uniswap" ∈ (resolveSourceFilters ["Uniswap"] ["LiquidityProvider"] none [] []).excludedSources ∧
    "LiquidityProvider" ∉
      (resolveSourceFilters ["Uniswap"] ["LiquidityProvider"] none [] []).includedSources := by
  have h := source_filtering_monotonic ["Uniswap"] ["LiquidityProvider"] none [] []
  exact ⟨h.1 "Uniswap" (by decide), h.2 (Or.inl rfl) "LiquidityProvider" (by decide)⟩

/-- A successful parse carries the parsed skipValidation flag through. -/
theorem parse_ok_skipValidation (req : RawQuery) (apiKey : Option String)
    (rfqtWhitelist plpWhitelist : List String) (endpoint : Endpoint)
    (p : GetSwapQuoteRequestParams)
    (hp : parseGetSwapQuoteRequestParams req apiKey rfqtWhitelist plpWhitelist endpoint = .ok p) :
    p.skipValidation = parseSkipValidation req.skipValidation := by
  unfold parseGetSwapQuoteRequestParams at hp
  cases hsl : parseSlippage req.slippagePercentage with
  | error e => rw [hsl] at hp; exact absurd hp (by simp)
  | ok s =>
    rw [hsl] at hp
    cases hfee : parseAffiliateFee req.feeRecipient req.sellTokenPercentageFee
        req.buyTokenPercentageFee with
    | error e => rw [hfee] at hp; exact absurd hp (by simp)
    | ok fee =>
      rw [hfee] at hp
      simp only [Except.ok.injEq] at hp
      rw [← hp]

/-- C9: every successful price-endpoint request reaches the orchestration
step with skipValidation true, whatever the raw parameter said, while on
the quote endpoint the flag is exactly the parsed caller parameter. -/
theorem price_endpoint_forces_skip_validation (req : RawQuery) (apiKey : Option String)
    (rfqtWhitelist plpWhitelist : List String) :
    (∀ p, getSwapPriceCalcInput req apiKey rfqtWhitelist plpWhitelist = .ok p →
      p.skipValidation = true) ∧
    (∀ p, getSwapQuoteCalcInput req apiKey rfqtWhitelist plpWhitelist = .ok p →
      p.skipValidation = parseSkipValidation req.skipValidation) := by
  constructor
  · intro p hp
    unfold getSwapPriceCalcInput at hp
    cases hparse : parseGetSwapQuoteRequestParams req apiKey rfqtWhitelist plpWhitelist
        Endpoint.price with
    | error e => rw [hparse] at hp; exact absurd hp (by simp)
    | ok q =>
      rw [hparse] at hp
      simp only [Except.ok.injEq] at hp
      rw [← hp]
  · intro p hp
    exact parse_ok_skipValidation req apiKey rfqtWhitelist plpWhitelist Endpoint.quote p hp

/-- The canonical request that the price endpoint produces for an empty raw
query with no API key and empty whitelists. -/
def emptyPriceParams : GetSwapQuoteRequestParams :=
  { takerAddress := none, sellToken := none, buyToken := none, sellAmount := none,
    buyAmount := none, slippagePercentage := DEFAULT_QUOTE_SLIPPAGE_PERCENTAGE, gasPrice := none,
    excludedSources := ["Native", "LiquidityProvider"], includedSources := [],
    affiliateAddress := none, rfqt := none, skipValidation := true, apiKey := none,
    affiliateFee := zeroAffiliateFee, includePriceComparisons := false,
    shouldSellEntireBalance := false }

/-- C9 witness: the price endpoint applied to the empty raw query, whose
skipValidation parameter is absent (so parses to false), still hands
skipValidation true to orchestration. -/
theorem price_endpoint_forces_skip_validation_witness :
    emptyPriceParams.skipValidation = true :=
  (price_endpoint_forces_skip_validation emptyRawQuery none [] []).1 emptyPriceParams (by decide)

/-- C10: after native-to-WETH substitution on both legs, the market-depth
handler fails with the invalid-address ValidationError on buyToken exactly
when the substituted identifiers are equal as strings, and in particular
the native against wrapped pair (ETH against WETH) fails: the wrap and
unwrap carve-out of the quote and price endpoints does not apply here. -/
theorem market_depth_equal_pair_check (isETH : String → Bool) (buyToken sellToken : String) :
    ((if isETH buyToken then "WETH" else buyToken) =
        (if isETH sellToken then "WETH" else sellToken) →
      getMarketDepthTokenCheck isETH buyToken sellToken =
        .error (marketDepthPairError (if isETH sellToken then "WETH" else sellToken)
          (if isETH buyToken then "WETH" else buyToken))) ∧
    ((if isETH buyToken then "WETH" else buyToken) ≠
        (if isETH sellToken then "WETH" else sellToken) →
      getMarketDepthTokenCheck isETH buyToken sellToken =
        .ok (if isETH buyToken then "WETH" else buyToken,
          if isETH sellToken then "WETH" else sellToken)) ∧
    getMarketDepthTokenCheck isETHSymbolOrAddress "ETH" "WETH" =
      .error (marketDepthPairError "WETH" "WETH") := by
  refine ⟨?_, ?_, by decide⟩
  · intro h
    simp [getMarketDepthTokenCheck, h]
  · intro h
    simp [getMarketDepthTokenCheck, h]

/-- C10 witness: two identical ordinary identifiers fail with the
invalid-pair ValidationError. -/
theorem market_depth_equal_pair_check_witness :
    getMarketDepthTokenCheck isETHSymbolOrAddress "DAI" "DAI" =
      .error (marketDepthPairError "DAI" "DAI") :=
  (market_depth_equal_pair_check isETHSymbolOrAddress "DAI" "DAI").1 (by decide)

end ZeroEx
